import Mathlib

/-!
Shallow embedding of `src/backend/server.js` (scalable-chat).

The server is a Node.js cluster: a master (Coordinator) process owning the
nickname reservation table, and worker (shard) processes owning sockets,
local nickname bindings, channel memberships and pending nickname requests.

Modelling conventions, matching JavaScript semantics:
* JSON string fields are `Option String`: `none` is `undefined` (absent);
  the JS falsy test `!obj.msg` holds for both `undefined` and `""`.
* Strict equality `===` between possibly-undefined strings is `Option` equality.
* `Array.prototype.splice(start)` with a single argument removes every
  element from (clamped) index `start` to the end and is modelled by
  `jsSpliceFrom`; `indexOf` returns `-1` when the element is absent.
* `Array.prototype.find` returns the first match (`List.find?`).
* Socket objects are compared by reference; distinct sockets are modelled as
  values with distinct ids, so structural equality stands in for reference
  equality.
* A thrown-and-swallowed exception (the empty `catch {}` in
  `onSocketReceiveData`) leaves the state unchanged and produces no effect;
  an uncaught throw in `onWorkerReceivedMsg` is modelled as `none` (crash).
-/

/-- Operation code `REQUEST_NICKNAME = 1`. -/
def REQUEST_NICKNAME : Nat := 1
/-- Operation code `PRIVATE_MESSAGE = 2`. -/
def PRIVATE_MESSAGE : Nat := 2
/-- Operation code `REQUEST_JOIN_CHANNEL = 3`. -/
def REQUEST_JOIN_CHANNEL : Nat := 3
/-- Operation code `CHANNEL_MESSAGE = 4`. -/
def CHANNEL_MESSAGE : Nat := 4
/-- Operation code `RELEASE_NICKNAME = 11`. -/
def RELEASE_NICKNAME : Nat := 11

/-- A TCP socket: identity plus its `destroyed` flag (read by `onSocketClosed`). -/
structure Socket where
  id : Nat
  destroyed : Bool
deriving DecidableEq, Repr

/-- A parsed JSON wire object; `none` fields are `undefined` in JS. The JS
fields `from` and `to` are spelled `from_` and `to_` (Lean keywords). -/
structure WireObj where
  cmd : Option Nat := none
  msg : Option String := none
  to_ : Option String := none
  channel : Option String := none
  from_ : Option String := none
  nickname : Option String := none
  success : Option Bool := none
deriving DecidableEq, Repr

/-- Element of `pendingNicknameRequests` and of `socketNicknames`:
the literal `{ socket, nickname }` pairs the worker pushes. -/
structure SocketNickname where
  socket : Socket
  nickname : Option String
deriving DecidableEq, Repr

/-- Element of the master's `reservedNicknames`: `{ owner, name }`.
Note the field is `name`, not `nickname`. -/
structure Reserved where
  owner : Nat
  name : Option String
deriving DecidableEq, Repr

/-- JS falsy test on a possibly-undefined string: `!s` holds for
`undefined` and for `""`. -/
def strFalsy : Option String → Bool
  | none => true
  | some s => s = ""

/-- Embeds `s.length` where the guard has ensured `s` is defined; `undefined`
never reaches `.length` in the source (short-circuit), `0` is a dummy. -/
def optLen : Option String → Nat
  | none => 0
  | some s => s.length

/-- JS `Array.prototype.findIndex`-style first index of `a`, `-1` if absent
(`indexOf` with reference equality collapses to this here, see header). -/
def jsIndexOfElem [BEq α] (l : List α) (a : α) : Int :=
  match l.findIdx? (fun x => x == a) with
  | some i => (i : Int)
  | none => -1

/-- JS `indexOf` applied to the result of a `find`: `indexOf(undefined)` is `-1`. -/
def jsIndexOfOpt [BEq α] (l : List α) : Option α → Int
  | none => -1
  | some a => jsIndexOfElem l a

/-- JS `arr.splice(start)` with one argument: removes every element from the
clamped start index to the end, leaving the prefix. Negative `start` counts
from the end, clamped at `0`. -/
def jsSpliceFrom (l : List α) (start : Int) : List α :=
  if 0 ≤ start then l.take start.toNat else l.take (l.length - (-start).toNat)

/-- The worker's channel map: insertion-ordered `(name, subscribers)` pairs. -/
abbrev ChannelMap : Type := List (String × List Socket)

/-- JS `Map.prototype.get` on the channel map (`get(undefined)` misses). -/
def mapGet (subs : ChannelMap) : Option String → Option (List Socket)
  | some k => (subs.find? (fun p => p.1 == k)).map (fun p => p.2)
  | none => none

/-- In-place `channelSubscriptions.get(key).push(socket)`: appends `socket`
to the subscriber array of `key`, all other entries untouched. -/
def mapPush (subs : ChannelMap) (key : Option String) (s : Socket) : ChannelMap :=
  match key with
  | some k => subs.map (fun p => if p.1 == k then (p.1, p.2 ++ [s]) else p)
  | none => subs

/-- The hardcoded channel catalog `CH1 .. CH10`, each starting empty. -/
def initialChannelSubscriptions : ChannelMap :=
  [("CH1", []), ("CH2", []), ("CH3", []), ("CH4", []), ("CH5", []),
   ("CH6", []), ("CH7", []), ("CH8", []), ("CH9", []), ("CH10", [])]

/-- Worker (shard) state: the three worker-side registries. -/
structure WorkerState where
  pendingNicknameRequests : List SocketNickname
  socketNicknames : List SocketNickname
  channelSubscriptions : ChannelMap
deriving DecidableEq, Repr

/-- Fresh worker state at startup. -/
def initWorkerState : WorkerState :=
  { pendingNicknameRequests := []
    socketNicknames := []
    channelSubscriptions := initialChannelSubscriptions }

/-- Master (Coordinator) state: the reservation table. -/
structure MasterState where
  reservedNicknames : List Reserved
deriving DecidableEq, Repr

/-- Observable actions of a worker: `socket.write(...)` or `process.send(...)`. -/
inductive WorkerEffect where
  | write (s : Socket) (obj : WireObj)
  | send (obj : WireObj)
deriving DecidableEq, Repr

/-- Observable actions of the master: reply to the requesting worker, or
broadcast to every worker. -/
inductive MasterEffect where
  | sendToWorker (obj : WireObj)
  | broadcast (obj : WireObj)
deriving DecidableEq, Repr

/-- Embeds `validateNicknameRequest(obj)`. -/
def validateNicknameRequest (obj : WireObj) : Bool :=
  if obj.cmd ≠ some REQUEST_NICKNAME ∨ strFalsy obj.msg ∨ optLen obj.msg < 1 then
    false
  else
    true

/-- Embeds `validatePrivateMessage(obj)`. -/
def validatePrivateMessage (obj : WireObj) : Bool :=
  if obj.cmd ≠ some PRIVATE_MESSAGE ∨ strFalsy obj.msg ∨ optLen obj.msg < 1 ∨
      strFalsy obj.to_ ∨ optLen obj.to_ < 1 then
    false
  else
    true

/-- Embeds `validateJoinChannelRequest(obj, socket)`: field checks, the channel must
exist in the map, and the socket must not already be subscribed. -/
def validateJoinChannelRequest (obj : WireObj) (socket : Socket)
    (subs : ChannelMap) : Bool :=
  if obj.cmd ≠ some REQUEST_JOIN_CHANNEL ∨ strFalsy obj.msg ∨ optLen obj.msg < 1 ∨
      (mapGet subs obj.msg).isNone then
    false
  else
    !((mapGet subs obj.msg).getD []).contains socket

/-- Embeds `validateChannelMessage(obj)`. -/
def validateChannelMessage (obj : WireObj) : Bool :=
  !(obj.cmd ≠ some CHANNEL_MESSAGE ∨ strFalsy obj.msg ∨ optLen obj.msg < 1 ∨
      strFalsy obj.channel ∨ optLen obj.channel < 1 : Bool)

/-- Embeds `checkNicknameAlreadyInUse(nickname)`: linear scan of the reservation
table comparing the `name` field. -/
def checkNicknameAlreadyInUse (st : MasterState) (nickname : Option String) : Bool :=
  st.reservedNicknames.any (fun e => e.name == nickname)

/-- Embeds `onSocketReceiveData(data, socket)`. Input `none` means `JSON.parse`
threw (undecodable bytes); the surrounding `try { ... } catch (ex) {}` turns
every throw inside the handler — including the `TypeError` from
`appendSenderNicknameToObj` when the sender has no binding — into a silent
no-op. -/
def onSocketReceiveData (input : Option WireObj) (socket : Socket)
    (st : WorkerState) : WorkerState × List WorkerEffect :=
  match input with
  | none => (st, [])
  | some obj =>
    if validateNicknameRequest obj then
      ({ st with pendingNicknameRequests :=
          st.pendingNicknameRequests ++ [⟨socket, obj.msg⟩] },
       [WorkerEffect.send obj])
    else if validateJoinChannelRequest obj socket st.channelSubscriptions then
      ({ st with channelSubscriptions :=
          mapPush st.channelSubscriptions obj.msg socket },
       [WorkerEffect.write socket { obj with success := some true }])
    else if validatePrivateMessage obj || validateChannelMessage obj then
      match st.socketNicknames.find? (fun e => e.socket == socket) with
      | some pair => (st, [WorkerEffect.send { obj with from_ := pair.nickname }])
      | none => (st, [])
    else
      (st, [WorkerEffect.write socket { obj with success := some false }])

/-- Embeds `onSocketClosed(erroneus)`: scans `socketNicknames` for a pair whose
socket has `destroyed === true` (the closed socket itself is not passed in),
releases that nickname and `splice`s at its index, then for every channel
`splice`s at the index of its first destroyed subscriber (`-1` when none). -/
def onSocketClosed (st : WorkerState) : WorkerState × List WorkerEffect :=
  let found := st.socketNicknames.find? (fun e => e.socket.destroyed)
  let st1 : WorkerState :=
    match found with
    | some pair =>
      { st with socketNicknames :=
          jsSpliceFrom st.socketNicknames (jsIndexOfElem st.socketNicknames pair) }
    | none => st
  let effs : List WorkerEffect :=
    match found with
    | some pair =>
      [WorkerEffect.send { msg := pair.nickname, cmd := some RELEASE_NICKNAME }]
    | none => []
  ({ st1 with channelSubscriptions :=
      st1.channelSubscriptions.map (fun p =>
        (p.1, jsSpliceFrom p.2 (jsIndexOfOpt p.2 (p.2.find? (fun s => s.destroyed))))) },
   effs)

/-- Embeds `onMasterReceivedMsg(obj, worker, broadcastToWorkers)`. In the
`RELEASE_NICKNAME` case the source compares `e.nickname === obj.msg`, but
`Reserved` entries only have fields `owner` and `name`: `e.nickname` is
`undefined`, so the comparison holds iff `obj.msg` is itself `undefined`. -/
def onMasterReceivedMsg (input : Option WireObj) (workerId : Nat)
    (st : MasterState) : MasterState × List MasterEffect :=
  match input with
  | none => (st, [])
  | some obj =>
    if obj.cmd = some REQUEST_NICKNAME then
      if checkNicknameAlreadyInUse st obj.msg then
        (st, [MasterEffect.sendToWorker
          { msg := some "Nickname is already in use.", nickname := obj.msg,
            cmd := some REQUEST_NICKNAME, success := some false }])
      else
        ({ st with reservedNicknames := st.reservedNicknames ++ [⟨workerId, obj.msg⟩] },
         [MasterEffect.sendToWorker
           { msg := some "Nickname is available.", nickname := obj.msg,
             cmd := some REQUEST_NICKNAME, success := some true }])
    else if obj.cmd = some CHANNEL_MESSAGE ∨ obj.cmd = some PRIVATE_MESSAGE then
      (st, [MasterEffect.broadcast obj])
    else if obj.cmd = some RELEASE_NICKNAME then
      let nicknameToRelease := st.reservedNicknames.find? (fun _ => obj.msg.isNone)
      ({ st with reservedNicknames :=
          (jsSpliceFrom st.reservedNicknames
            (jsIndexOfOpt st.reservedNicknames nicknameToRelease)) },
       [])
    else
      (st, [])

/-- Embeds `onWorkerReceivedMsg(obj)`: a `none` result models an uncaught throw
(worker crash): dereferencing a failed `find` in the `REQUEST_NICKNAME`
case, or iterating `get(channel)` when the channel is unknown. -/
def onWorkerReceivedMsg (input : Option WireObj) (st : WorkerState) :
    Option (WorkerState × List WorkerEffect) :=
  match input with
  | none => some (st, [])
  | some obj =>
    if obj.cmd = some REQUEST_NICKNAME then
      match st.pendingNicknameRequests.find? (fun e => e.nickname == obj.nickname) with
      | none => none
      | some pendingRequest =>
        let st1 : WorkerState :=
          if obj.success = some true then
            { st with socketNicknames := st.socketNicknames ++ [pendingRequest] }
          else st
        some ({ st1 with pendingNicknameRequests :=
                  (jsSpliceFrom st.pendingNicknameRequests
                    (jsIndexOfElem st.pendingNicknameRequests pendingRequest)) },
              [WorkerEffect.write pendingRequest.socket obj])
    else if obj.cmd = some PRIVATE_MESSAGE then
      some (st, st.socketNicknames.filterMap (fun p =>
        if p.nickname == obj.to_ then
          some (WorkerEffect.write p.socket { obj with success := some true })
        else none))
    else if obj.cmd = some CHANNEL_MESSAGE then
      match mapGet st.channelSubscriptions obj.channel with
      | none => none
      | some l =>
        some (st, l.map (fun s => WorkerEffect.write s { obj with success := some true }))
    else
      some (st, [])

/-- Embeds `onWorkerExit(code, signal, worker)`: iterates over the snapshot
`reservedNicknames.filter(e => e.owner === worker.id)` and, for each entry,
`splice`s the live array at `indexOf(entry)` (single-argument `splice`). -/
def onWorkerExit (workerId : Nat) (st : MasterState) : MasterState :=
  { st with reservedNicknames :=
      ((st.reservedNicknames.filter (fun e => e.owner == workerId)).foldl
        (fun acc obj => jsSpliceFrom acc (jsIndexOfElem acc obj))
        st.reservedNicknames) }

/-! ## Concrete sample inputs used as evidence -/

/-- The in-process release message `{ msg: name, cmd: RELEASE_NICKNAME }`. -/
def releaseObj (n : String) : WireObj :=
  { msg := some n, cmd := some RELEASE_NICKNAME }

/-- A client `REQUEST_NICKNAME` message for `n`. -/
def nickReq (n : String) : WireObj :=
  { cmd := some REQUEST_NICKNAME, msg := some n }

/-- A sample live (not destroyed) socket. -/
def sockA : Socket := ⟨10, false⟩

/-- A second sample live socket. -/
def sockB : Socket := ⟨11, false⟩

/-- A reservation table holding only `alice`, owned by shard 1. -/
def c2Table : MasterState := ⟨[⟨1, some "alice"⟩]⟩

/-- A reservation table holding `alice` (shard 1) and `bob` (shard 2). -/
def c2TableTwo : MasterState := ⟨[⟨1, some "alice"⟩, ⟨2, some "bob"⟩]⟩

/-- A reservation table with `a` owned by shard 1 and `b` owned by shard 2. -/
def c3Table : MasterState := ⟨[⟨1, some "a"⟩, ⟨2, some "b"⟩]⟩

/-- Worker state with one pending nickname request by `sockA`. -/
def c4Pending : WorkerState :=
  { pendingNicknameRequests := [⟨sockA, some "alice"⟩]
    socketNicknames := []
    channelSubscriptions := initialChannelSubscriptions }

/-- Worker state with pending requests for the same name from two sockets. -/
def c4TwoPending : WorkerState :=
  { pendingNicknameRequests := [⟨sockA, some "nick"⟩, ⟨sockB, some "nick"⟩]
    socketNicknames := []
    channelSubscriptions := initialChannelSubscriptions }

/-- The master's grant reply for the name `nick`. -/
def nickResp : WireObj :=
  { msg := some "Nickname is available.", nickname := some "nick",
    cmd := some REQUEST_NICKNAME, success := some true }

/-- A well-formed private message to `bob` with nonempty body. -/
def pmBob : WireObj :=
  { cmd := some PRIVATE_MESSAGE, msg := some "hi", to_ := some "bob" }

/-- A destroyed socket bound to `alice` in the state `c8St`. -/
def sockAlice : Socket := ⟨1, true⟩

/-- A live socket bound to `bob` in the state `c8St`. -/
def sockBob : Socket := ⟨2, false⟩

/-- Worker state where destroyed `sockAlice` is bound to `alice`, live
`sockBob` is bound to `bob` and subscribed to `CH1`. -/
def c8St : WorkerState :=
  { pendingNicknameRequests := []
    socketNicknames := [⟨sockAlice, some "alice"⟩, ⟨sockBob, some "bob"⟩]
    channelSubscriptions := [("CH1", [sockBob])] }

/-! ## Claims refuted by the code (evidence theorems) -/

/-- Claim C2: `releaseNickname` is claimed idempotent, releasing an absent
name a no-op, releasing a present name removing exactly that entry. The code
looks the entry up through the nonexistent field `e.nickname` and then
`splice`s at `-1`: releasing the absent name `bob` deletes the whole
single-entry table, and releasing the present name `alice` from a two-entry
table deletes `bob`'s entry while keeping `alice`. -/
theorem releaseNickname_deletes_last_entry :
    (onMasterReceivedMsg (some (releaseObj "bob")) 1 c2Table).1.reservedNicknames = []
    ∧ (onMasterReceivedMsg (some (releaseObj "alice")) 1 c2TableTwo).1.reservedNicknames
        = [⟨1, some "alice"⟩] := by
  decide

/-- Claim C3: a shard's exit is claimed to remove exactly that shard's
entries. On the table `[a → shard 1, b → shard 2]`, worker 1's exit empties
the table, deleting shard 2's reservation `b` as well, because the
single-argument `splice` removes the whole suffix from the matched index. -/
theorem onWorkerExit_deletes_other_shards_entries :
    (onWorkerExit 1 c3Table).reservedNicknames = []
    ∧ (⟨2, some "b"⟩ : Reserved) ∈ c3Table.reservedNicknames := by
  decide

/-- Claim C4: a `NICKNAME_REQUEST` is claimed rejected while one is already
pending for the connection, and the decision is claimed to be resolved by
connection identity. The code registers a second pending entry for the same
socket, and resolves the master's reply by matching the requested name
string: with two sockets pending on the name `nick`, the reply is written to
the first socket and both pending entries are destroyed (the second socket
never gets an answer). -/
theorem pendingNicknameRequest_duplicate_and_resolved_by_name :
    (onSocketReceiveData (some (nickReq "bob")) sockA c4Pending).1.pendingNicknameRequests
      = [⟨sockA, some "alice"⟩, ⟨sockA, some "bob"⟩]
    ∧ onWorkerReceivedMsg (some nickResp) c4TwoPending
      = some ({ pendingNicknameRequests := []
                socketNicknames := [⟨sockA, some "nick"⟩]
                channelSubscriptions := initialChannelSubscriptions },
              [WorkerEffect.write sockA nickResp]) := by
  decide

/-- Claim C5: malformed input is claimed to produce a structured failure
reply. When `JSON.parse` throws on undecodable bytes, the empty `catch {}`
swallows the exception: the handler produces no reply at all (and no state
change) — a silent drop, for every socket and worker state. -/
theorem undecodable_bytes_silently_dropped (socket : Socket) (st : WorkerState) :
    onSocketReceiveData none socket st = (st, []) := rfl

/-- Claim C6: a `PRIVATE_MESSAGE` from a connection with no bound nickname
is claimed to fail with a structured validation error sent to the sender.
In the code, `appendSenderNicknameToObj` throws a `TypeError`
(`find` returns `undefined`), the `catch {}` swallows it, and the sender
receives nothing: on the initial worker state the well-formed message
`pmBob` from the unbound socket `sockA` yields no effect at all. -/
theorem unbound_sender_message_silently_dropped :
    onSocketReceiveData (some pmBob) sockA initWorkerState = (initWorkerState, []) := by
  decide

/-- Claim C8: teardown is claimed to clear exactly the closed connection's
binding and memberships. The handler instead scans for any `destroyed`
socket and uses single-argument `splice`: on `c8St` (destroyed `sockAlice`
plus live `sockBob`), it releases `alice` but also deletes `bob`'s binding
(suffix splice) and removes the live `sockBob` from `CH1` (`splice(-1)`
when no destroyed socket is found in the subscriber list). -/
theorem onSocketClosed_corrupts_other_connections :
    onSocketClosed c8St
      = ({ pendingNicknameRequests := []
           socketNicknames := []
           channelSubscriptions := [("CH1", [])] },
         [WorkerEffect.send { msg := some "alice", cmd := some RELEASE_NICKNAME }])
    ∧ sockBob.destroyed = false := by
  decide

/-! ## Helper lemmas -/

/-- The reservation-table scan succeeds exactly when some entry holds the name. -/
theorem checkNicknameAlreadyInUse_iff (st : MasterState) (n : Option String) :
    checkNicknameAlreadyInUse st n = true ↔ ∃ e ∈ st.reservedNicknames, e.name = n := by
  simp [checkNicknameAlreadyInUse, List.any_eq_true, beq_iff_eq]

/-! ## Claims the code satisfies -/

/-- Claim C1: a nickname request processed by the master is granted iff the
requested name is absent from the reservation table; on a grant the pair
`(name, shardId)` is appended, and any later request for the identical name
against the post-grant table is denied with the structured conflict reply. -/
theorem requestNickname_grant_iff_absent (st : MasterState) (w : Nat) (obj : WireObj)
    (h : obj.cmd = some REQUEST_NICKNAME) :
    ((∃ e ∈ st.reservedNicknames, e.name = obj.msg) →
        onMasterReceivedMsg (some obj) w st
          = (st, [MasterEffect.sendToWorker
              { msg := some "Nickname is already in use.", nickname := obj.msg,
                cmd := some REQUEST_NICKNAME, success := some false }]))
    ∧ ((¬ ∃ e ∈ st.reservedNicknames, e.name = obj.msg) →
        (onMasterReceivedMsg (some obj) w st
          = (⟨st.reservedNicknames ++ [⟨w, obj.msg⟩]⟩,
             [MasterEffect.sendToWorker
              { msg := some "Nickname is available.", nickname := obj.msg,
                cmd := some REQUEST_NICKNAME, success := some true }])
        ∧ ∀ (w2 : Nat) (obj2 : WireObj), obj2.cmd = some REQUEST_NICKNAME →
            obj2.msg = obj.msg →
            onMasterReceivedMsg (some obj2) w2 ⟨st.reservedNicknames ++ [⟨w, obj.msg⟩]⟩
              = (⟨st.reservedNicknames ++ [⟨w, obj.msg⟩]⟩,
                 [MasterEffect.sendToWorker
                  { msg := some "Nickname is already in use.", nickname := obj2.msg,
                    cmd := some REQUEST_NICKNAME, success := some false }]))) := by
  constructor
  · intro hex
    have hc : checkNicknameAlreadyInUse st obj.msg = true :=
      (checkNicknameAlreadyInUse_iff st obj.msg).mpr hex
    simp [onMasterReceivedMsg, h, hc]
  · intro hex
    have hc : checkNicknameAlreadyInUse st obj.msg = false := by
      have hne : ¬ (checkNicknameAlreadyInUse st obj.msg = true) := fun hh =>
        hex ((checkNicknameAlreadyInUse_iff st obj.msg).mp hh)
      exact Bool.not_eq_true _ ▸ by simpa using hne
    refine ⟨by simp [onMasterReceivedMsg, h, hc], ?_⟩
    intro w2 obj2 h2 hmsg
    have hc2 : checkNicknameAlreadyInUse ⟨st.reservedNicknames ++ [⟨w, obj.msg⟩]⟩ obj2.msg
        = true := by
      apply (checkNicknameAlreadyInUse_iff _ obj2.msg).mpr
      exact ⟨⟨w, obj.msg⟩, by simp, hmsg.symm⟩
    simp [onMasterReceivedMsg, h2, hc2]

/-- Witness for C1: on the empty table, requesting `alice` from shard 1 is
granted and inserts the pair. -/
theorem requestNickname_grant_iff_absent_witness :
    onMasterReceivedMsg (some (nickReq "alice")) 1 ⟨[]⟩
      = (⟨[⟨1, some "alice"⟩]⟩,
         [MasterEffect.sendToWorker
          { msg := some "Nickname is available.", nickname := some "alice",
            cmd := some REQUEST_NICKNAME, success := some true }]) :=
  ((requestNickname_grant_iff_absent ⟨[]⟩ 1 (nickReq "alice") rfl).2 (by simp)).1

/-- Claim C9: on a relayed `PRIVATE_MESSAGE` the worker stays alive, its
state is unchanged, and the stamped message (`success := true`, all other
fields verbatim) is written exactly to the locally-bound sockets whose
nickname equals `to`; with no local match, nothing is written and no error
occurs. -/
theorem privateMessage_relay_delivery (st : WorkerState) (obj : WireObj)
    (h : obj.cmd = some PRIVATE_MESSAGE) :
    ∃ effs, onWorkerReceivedMsg (some obj) st = some (st, effs)
      ∧ (∀ e ∈ effs, ∃ p, p ∈ st.socketNicknames ∧ p.nickname = obj.to_ ∧
          e = WorkerEffect.write p.socket { obj with success := some true })
      ∧ (∀ p ∈ st.socketNicknames, p.nickname = obj.to_ →
          WorkerEffect.write p.socket { obj with success := some true } ∈ effs)
      ∧ ((∀ p ∈ st.socketNicknames, p.nickname ≠ obj.to_) → effs = []) := by
  have hstep : onWorkerReceivedMsg (some obj) st
      = some (st, st.socketNicknames.filterMap (fun p =>
          if p.nickname == obj.to_ then
            some (WorkerEffect.write p.socket { obj with success := some true })
          else none)) := by
    simp [onWorkerReceivedMsg, h, REQUEST_NICKNAME, PRIVATE_MESSAGE]
  refine ⟨_, hstep, ?_, ?_, ?_⟩
  · intro e he
    simp only [List.mem_filterMap] at he
    obtain ⟨p, hp, hpe⟩ := he
    by_cases hn : p.nickname = obj.to_
    · simp only [hn, beq_self_eq_true, if_true, Option.some.injEq] at hpe
      exact ⟨p, hp, hn, hpe.symm⟩
    · simp [hn] at hpe
  · intro p hp hn
    simp only [List.mem_filterMap]
    exact ⟨p, hp, by simp [hn]⟩
  · intro hall
    apply List.filterMap_eq_nil_iff.mpr
    intro p hp
    simp [hall p hp]

/-- Worker state with `sockB` bound to `bob`, used as the C9 witness state. -/
def c9St : WorkerState :=
  { pendingNicknameRequests := []
    socketNicknames := [⟨sockB, some "bob"⟩]
    channelSubscriptions := initialChannelSubscriptions }

/-- Witness for C9: the relayed `pmBob` on `c9St`. -/
theorem privateMessage_relay_delivery_witness :
    ∃ effs, onWorkerReceivedMsg (some pmBob) c9St = some (c9St, effs)
      ∧ (∀ e ∈ effs, ∃ p, p ∈ c9St.socketNicknames ∧ p.nickname = pmBob.to_ ∧
          e = WorkerEffect.write p.socket { pmBob with success := some true })
      ∧ (∀ p ∈ c9St.socketNicknames, p.nickname = pmBob.to_ →
          WorkerEffect.write p.socket { pmBob with success := some true } ∈ effs)
      ∧ ((∀ p ∈ c9St.socketNicknames, p.nickname ≠ pmBob.to_) → effs = []) :=
  privateMessage_relay_delivery c9St pmBob rfl

/-- Evaluates `mapGet` on a cons whose head key matches. -/
theorem mapGet_cons_pos (p : String × List Socket) (rest : ChannelMap) (k : String)
    (hk : (p.1 == k) = true) : mapGet (p :: rest) (some k) = some p.2 := by
  show ((p :: rest).find? (fun q => q.1 == k)).map (fun q => q.2) = some p.2
  simp [List.find?_cons, hk]

/-- Evaluates `mapGet` on a cons whose head key differs. -/
theorem mapGet_cons_neg (p : String × List Socket) (rest : ChannelMap) (k : String)
    (hk : (p.1 == k) = false) : mapGet (p :: rest) (some k) = mapGet rest (some k) := by
  show ((p :: rest).find? (fun q => q.1 == k)).map (fun q => q.2) = mapGet rest (some k)
  simp [List.find?_cons, hk, mapGet]

/-- Unfolds `mapPush` over cons. -/
theorem mapPush_cons (p : String × List Socket) (rest : ChannelMap) (k : String)
    (s : Socket) :
    mapPush (p :: rest) (some k) s
      = (if p.1 == k then (p.1, p.2 ++ [s]) else p) :: mapPush rest (some k) s := rfl

/-- Pushing onto channel `k` appends the socket to exactly `k`'s list. -/
theorem mapGet_mapPush_same (subs : ChannelMap) (k : String) (s : Socket)
    (l : List Socket) (h : mapGet subs (some k) = some l) :
    mapGet (mapPush subs (some k) s) (some k) = some (l ++ [s]) := by
  induction subs with
  | nil => simp [mapGet] at h
  | cons p rest ih =>
    cases hk : (p.1 == k) with
    | true =>
      rw [mapGet_cons_pos p rest k hk] at h
      injection h with h2
      rw [mapPush_cons, if_pos hk,
          mapGet_cons_pos (p.1, p.2 ++ [s]) (mapPush rest (some k) s) k hk, h2]
    | false =>
      rw [mapGet_cons_neg p rest k hk] at h
      rw [mapPush_cons, if_neg (by simp [hk]),
          mapGet_cons_neg p (mapPush rest (some k) s) k hk]
      exact ih h

/-- Pushing onto channel `k` leaves every other channel's list unchanged. -/
theorem mapGet_mapPush_other (subs : ChannelMap) (k c : String) (s : Socket)
    (hne : c ≠ k) :
    mapGet (mapPush subs (some k) s) (some c) = mapGet subs (some c) := by
  induction subs with
  | nil => rfl
  | cons p rest ih =>
    cases hk : (p.1 == k) with
    | true =>
      have hpk : p.1 = k := eq_of_beq hk
      have hc : (p.1 == c) = false := by
        apply beq_eq_false_iff_ne.mpr
        rw [hpk]
        exact fun hh => hne hh.symm
      rw [mapPush_cons, if_pos hk,
          mapGet_cons_neg (p.1, p.2 ++ [s]) (mapPush rest (some k) s) c hc,
          mapGet_cons_neg p rest c hc]
      exact ih
    | false =>
      cases hc : (p.1 == c) with
      | true =>
        rw [mapPush_cons, if_neg (by simp [hk]),
            mapGet_cons_pos p (mapPush rest (some k) s) c hc,
            mapGet_cons_pos p rest c hc]
      | false =>
        rw [mapPush_cons, if_neg (by simp [hk]),
            mapGet_cons_neg p (mapPush rest (some k) s) c hc,
            mapGet_cons_neg p rest c hc]
        exact ih

/-- A validator fails on the wrong command code (join requests are not
nickname requests). -/
theorem validateNicknameRequest_false {obj : WireObj}
    (h : obj.cmd ≠ some REQUEST_NICKNAME) : validateNicknameRequest obj = false := by
  simp [validateNicknameRequest, h]

/-- Shows `validatePrivateMessage` fails on the wrong command code. -/
theorem validatePrivateMessage_false {obj : WireObj}
    (h : obj.cmd ≠ some PRIVATE_MESSAGE) : validatePrivateMessage obj = false := by
  simp [validatePrivateMessage, h]

/-- Shows `validateChannelMessage` fails on the wrong command code. -/
theorem validateChannelMessage_false {obj : WireObj}
    (h : obj.cmd ≠ some CHANNEL_MESSAGE) : validateChannelMessage obj = false := by
  simp [validateChannelMessage, h]

/-- Claim C7: a `JOIN_CHANNEL` request succeeds iff the name denotes an
existing channel the socket is not yet in; on failure the reply is the
structured failure and the whole state (hence every membership list) is
unchanged; on success the socket is appended to exactly that channel
(appearing once), all other channels are untouched, the reply is the
structured success, and no message is sent to the Coordinator. The
hypothesis `hempty` states the catalog has no empty-named channel, true of
the fixed catalog. -/
theorem joinChannel_local_membership (st : WorkerState) (socket : Socket)
    (obj : WireObj) (h : obj.cmd = some REQUEST_JOIN_CHANNEL)
    (hempty : mapGet st.channelSubscriptions (some "") = none) :
    (validateJoinChannelRequest obj socket st.channelSubscriptions = true ↔
       ∃ l, mapGet st.channelSubscriptions obj.msg = some l ∧ l.contains socket = false)
    ∧ (validateJoinChannelRequest obj socket st.channelSubscriptions = false →
        onSocketReceiveData (some obj) socket st
          = (st, [WorkerEffect.write socket { obj with success := some false }]))
    ∧ (∀ l, mapGet st.channelSubscriptions obj.msg = some l →
        l.contains socket = false →
        onSocketReceiveData (some obj) socket st
          = ({ st with channelSubscriptions :=
                mapPush st.channelSubscriptions obj.msg socket },
             [WorkerEffect.write socket { obj with success := some true }])
        ∧ mapGet (mapPush st.channelSubscriptions obj.msg socket) obj.msg
            = some (l ++ [socket])
        ∧ (∀ c : String, some c ≠ obj.msg →
            mapGet (mapPush st.channelSubscriptions obj.msg socket) (some c)
              = mapGet st.channelSubscriptions (some c))
        ∧ (l ++ [socket]).count socket = 1) := by
  have h1 : validateNicknameRequest obj = false :=
    validateNicknameRequest_false (by simp [h, REQUEST_NICKNAME, REQUEST_JOIN_CHANNEL])
  have h2 : validatePrivateMessage obj = false :=
    validatePrivateMessage_false (by simp [h, PRIVATE_MESSAGE, REQUEST_JOIN_CHANNEL])
  have h4 : validateChannelMessage obj = false :=
    validateChannelMessage_false (by simp [h, CHANNEL_MESSAGE, REQUEST_JOIN_CHANNEL])
  have hiff : validateJoinChannelRequest obj socket st.channelSubscriptions = true ↔
      ∃ l, mapGet st.channelSubscriptions obj.msg = some l ∧
        l.contains socket = false := by
    unfold validateJoinChannelRequest
    rcases hmsg : obj.msg with _ | k
    · simp [mapGet, strFalsy]
    · by_cases hk0 : k = ""
      · subst hk0
        simp [strFalsy, hempty]
      · have hlen : ¬ (optLen (some k) < 1) := by
          have : k.length ≠ 0 := fun hh => hk0 (String.ext (List.length_eq_zero.mp hh))
          simp [optLen]
          omega
        have hsf : strFalsy (some k) = false := by simp [strFalsy, hk0]
        rcases hg : mapGet st.channelSubscriptions (some k) with _ | l
        · simp [h, hsf, hg, hlen]
        · simp [h, hsf, hg, hlen]
  refine ⟨hiff, ?_, ?_⟩
  · intro hv
    simp [onSocketReceiveData, h1, hv, h2, h4]
  · intro l hg hcont
    have hv : validateJoinChannelRequest obj socket st.channelSubscriptions = true :=
      hiff.mpr ⟨l, hg, hcont⟩
    obtain ⟨k, hk⟩ : ∃ k, obj.msg = some k := by
      cases hmsg : obj.msg with
      | none => rw [hmsg] at hg; simp [mapGet] at hg
      | some k2 => exact ⟨k2, by simp [hmsg]⟩
    refine ⟨by simp [onSocketReceiveData, h1, hv], ?_, ?_, ?_⟩
    · rw [hk] at hg ⊢
      exact mapGet_mapPush_same _ _ _ _ hg
    · intro c hc
      rw [hk] at hc ⊢
      exact mapGet_mapPush_other _ _ _ _ (fun hh => hc (by rw [hh]))
    · have hmem : socket ∉ l := by simpa using hcont
      simp [List.count_append, List.count_eq_zero.mpr hmem]

/-- A client `JOIN_CHANNEL` request for `CH1`. -/
def joinCH1 : WireObj := { cmd := some REQUEST_JOIN_CHANNEL, msg := some "CH1" }

/-- Witness for C7: joining `CH1` from the initial state succeeds and
appends the socket to `CH1`'s membership. -/
theorem joinChannel_local_membership_witness :
    onSocketReceiveData (some joinCH1) sockA initWorkerState
      = ({ initWorkerState with channelSubscriptions := (
            mapPush initWorkerState.channelSubscriptions joinCH1.msg sockA) },
         [WorkerEffect.write sockA { joinCH1 with success := some true }])
    ∧ mapGet (mapPush initWorkerState.channelSubscriptions joinCH1.msg sockA)
        joinCH1.msg = some [sockA] :=
  have hc7 := (joinChannel_local_membership initWorkerState sockA joinCH1 rfl
    (by decide)).2.2 [] (by decide) (by decide)
  ⟨hc7.1, hc7.2.1⟩

/-- The channel catalog of a worker state: the map's key list. -/
def channelNames (st : WorkerState) : List String :=
  st.channelSubscriptions.map Prod.fst

/-- Mapping a key-preserving function over the channel map keeps the keys. -/
theorem compFst (g : String × List Socket → String × List Socket)
    (hg : ∀ p, (g p).1 = p.1) (subs : ChannelMap) :
    (subs.map g).map Prod.fst = subs.map Prod.fst := by
  induction subs with
  | nil => rfl
  | cons p rest ih => simp [hg, ih]

/-- Shows `mapPush` never changes the key list. -/
theorem mapPush_fst (subs : ChannelMap) (key : Option String) (s : Socket) :
    (mapPush subs key s).map Prod.fst = subs.map Prod.fst := by
  cases key with
  | none => rfl
  | some k =>
    exact compFst _ (fun p => by cases hk : (p.1 == k) <;> simp [hk]) subs

/-- Claim C10: the channel catalog is `CH1 .. CH10` at startup, and every
handler — client data (including `JOIN_CHANNEL`), socket teardown, and
master messages (when they do not crash) — preserves the key list of
`channelSubscriptions`: channels are never created or removed, only the
membership lists change. -/
theorem channelCatalog_fixed :
    channelNames initWorkerState
      = ["CH1", "CH2", "CH3", "CH4", "CH5", "CH6", "CH7", "CH8", "CH9", "CH10"]
    ∧ (∀ (input : Option WireObj) (socket : Socket) (st : WorkerState),
        channelNames (onSocketReceiveData input socket st).1 = channelNames st)
    ∧ (∀ st : WorkerState, channelNames (onSocketClosed st).1 = channelNames st)
    ∧ (∀ (input : Option WireObj) (st : WorkerState)
        (res : WorkerState × List WorkerEffect),
        onWorkerReceivedMsg input st = some res →
        channelNames res.1 = channelNames st) := by
  refine ⟨rfl, ?_, ?_, ?_⟩
  · intro input socket st
    cases input with
    | none => rfl
    | some obj =>
      simp only [onSocketReceiveData]
      split
      · rfl
      · split
        · simpa [channelNames] using
            mapPush_fst st.channelSubscriptions obj.msg socket
        · split
          · split <;> rfl
          · rfl
  · intro st
    have hg : ∀ (subs : ChannelMap),
        (subs.map (fun p =>
          (p.1, jsSpliceFrom p.2 (jsIndexOfOpt p.2 (p.2.find? (fun s => s.destroyed)))))).map
            Prod.fst = subs.map Prod.fst :=
      fun subs => compFst
        (fun p => (p.1, jsSpliceFrom p.2 (jsIndexOfOpt p.2 (p.2.find? (fun s => s.destroyed)))))
        (fun p => rfl) subs
    cases hf : st.socketNicknames.find? (fun e => e.socket.destroyed) <;>
      simp [onSocketClosed, hf, channelNames, hg]
  · intro input st res h
    cases input with
    | none =>
      simp only [onWorkerReceivedMsg] at h
      injection h with h1
      rw [← h1]
    | some obj =>
      simp only [onWorkerReceivedMsg] at h
      split at h
      · split at h
        · exact Option.noConfusion h
        · injection h with h1
          rw [← h1]
          split <;> rfl
      · split at h
        · injection h with h1
          rw [← h1]
        · split at h
          · split at h
            · exact Option.noConfusion h
            · injection h with h1
              rw [← h1]
          · injection h with h1
            rw [← h1]

/-- Witness for C10: a concrete join request preserves the catalog, the
initial catalog is `CH1 .. CH10`, and a concrete master message instance. -/
theorem channelCatalog_fixed_witness :
    channelNames (onSocketReceiveData (some joinCH1) sockA initWorkerState).1
      = channelNames initWorkerState
    ∧ channelNames initWorkerState
      = ["CH1", "CH2", "CH3", "CH4", "CH5", "CH6", "CH7", "CH8", "CH9", "CH10"]
    ∧ channelNames initWorkerState = channelNames initWorkerState :=
  ⟨channelCatalog_fixed.2.1 (some joinCH1) sockA initWorkerState,
   channelCatalog_fixed.1,
   channelCatalog_fixed.2.2.2 none initWorkerState (initWorkerState, []) rfl⟩
